import Mathlib

/-!
Shallow embedding of the recommendation engine of the budget_manager
repository (budget_manager/core/calculator.py,
budget_manager/services/recommendation_service.py,
budget_manager/services/expense_service.py,
budget_manager/services/budget_service.py), together with theorems
settling the specification claims about it.

Modelling conventions:
- Python `Decimal` amounts are modelled as exact rationals (ℚ).
- Python `date` objects are triples (year, month, day) of naturals with
  the lexicographic order Python uses; `date.toordinal` is the
  proleptic-Gregorian day count used by date subtraction.
- Representation of numbers matters to one claim, so the values returned
  by `get_savings_progress` carry a `PyNum` tag recording whether the
  Python object is a `Decimal`, the result of a `float(...)` conversion,
  or an `int` literal; the rational value is carried alongside.
- Fallible calls return `Except PyError`; Python keyword-argument binding
  is modelled explicitly where a call site's keywords and the callee's
  parameter list disagree (delegation from
  RecommendationService.get_daily_recommendation to
  BudgetCalculator.calculate_daily_recommendation).
- Database queries are modelled by an environment record holding the
  lists and scalars the storage collaborator returns for the queried
  user and month; string rendering of amounts (Formatters.format_currency
  and percentage formatting) is a presentation collaborator supplied by
  the environment, as the spec places display formatting outside the
  engine.
-/

namespace BudgetManager

/-- Python `datetime.date`: a (year, month, day) triple. Validity
(1 ≤ month ≤ 12 etc.) is not baked into the type; theorems hold for all
triples unless stated. -/
structure Date where
  year : Nat
  month : Nat
  day : Nat
deriving DecidableEq, Repr

/-- Gregorian leap-year test, as in Python calendar.isleap. -/
def isLeapYear (y : Nat) : Bool :=
  (y % 4 == 0 && y % 100 != 0) || y % 400 == 0

/-- Day count of a month, as in calendar.monthrange(year, month)[1]. -/
def monthLen (y m : Nat) : Nat :=
  if m = 2 then (if isLeapYear y then 29 else 28)
  else if m = 4 ∨ m = 6 ∨ m = 9 ∨ m = 11 then 30
  else 31

/-- Days in the months of year y strictly before month m. -/
def daysBeforeMonth (y m : Nat) : Nat :=
  (List.range (m - 1)).foldl (fun acc i => acc + monthLen y (i + 1)) 0

/-- Python date.toordinal: day number in the proleptic Gregorian
calendar, with year 1, month 1, day 1 mapping to 1. -/
def toOrdinal (d : Date) : Nat :=
  let py := d.year - 1
  py * 365 + py / 4 - py / 100 + py / 400 + daysBeforeMonth d.year d.month + d.day

/-- Python date comparison a < b: lexicographic on (year, month, day). -/
def dateLt (a b : Date) : Bool :=
  a.year < b.year ||
    (a.year == b.year && (a.month < b.month ||
      (a.month == b.month && a.day < b.day)))

/-- Python date comparison a <= b. -/
def dateLe (a b : Date) : Bool :=
  dateLt a b || a == b

/-- Python date.replace(day=k). -/
def replaceDay (d : Date) (k : Nat) : Date :=
  { d with day := k }

/-- Timedelta in whole days of Python (a - b) for dates. -/
def dateSubDays (a b : Date) : Int :=
  (toOrdinal a : Int) - (toOrdinal b : Int)

/-- Expense categories (core/models.py `ExpenseCategory`). -/
inductive ExpenseCategory where
  | food | transportation | entertainment | utilities
  | shopping | health | education | other
deriving DecidableEq, Repr

/-- String value of a category (the str-enum's .value). -/
def categoryValue : ExpenseCategory → String
  | .food => "food"
  | .transportation => "transportation"
  | .entertainment => "entertainment"
  | .utilities => "utilities"
  | .shopping => "shopping"
  | .health => "health"
  | .education => "education"
  | .other => "other"

/-- Expense record (core/models.py `Expense`); fields not used by the
calculations (id, description, created_at) are omitted. -/
structure Expense where
  amount : ℚ
  category : ExpenseCategory
  expense_date : Date
deriving DecidableEq, Repr

/-- Income entry (core/models.py `BudgetEntry`). -/
structure BudgetEntry where
  amount : ℚ
  month : Date
deriving DecidableEq, Repr

/-- Savings goal (core/models.py `SavingsGoal`). -/
structure SavingsGoal where
  target_amount : ℚ
  month : Date
deriving DecidableEq, Repr

/-- Result record of calculate_daily_recommendation
(core/models.py `DailyRecommendation`). -/
structure DailyRecommendation where
  recommended_daily_limit : ℚ
  days_remaining : Int
  current_month_spent : ℚ
  savings_target : ℚ
  monthly_income : ℚ
  projected_savings : ℚ
deriving DecidableEq, Repr

/-- Result record of calculate_monthly_summary
(core/models.py `BudgetSummary`). The dict expense_by_category is an
insertion-ordered association list, matching Python dict semantics. -/
structure BudgetSummary where
  month : Date
  total_income : ℚ
  total_expenses : ℚ
  savings_target : ℚ
  actual_savings : ℚ
  expense_by_category : List (String × ℚ)
  days_in_month : Nat
  days_passed : Int
deriving DecidableEq, Repr

/-- Python sum(e.amount for e in l): left fold of addition from 0. -/
def sumAmounts (l : List Expense) : ℚ :=
  l.foldl (fun acc e => acc + e.amount) 0

/-- Python sum(entry.amount for entry in l) over income entries. -/
def sumEntryAmounts (l : List BudgetEntry) : ℚ :=
  l.foldl (fun acc e => acc + e.amount) 0

/-- Expense filter used at calculator.py:50-53 and 106-109: keep the
expenses whose date lies in the given (year, month). -/
def inMonth (y m : Nat) (e : Expense) : Bool :=
  e.expense_date.month == m && e.expense_date.year == y

/-- BudgetCalculator.calculate_daily_recommendation
(core/calculator.py:16-75). `today` is the ambient clock date.
The src signature has exactly the parameters monthly_income,
savings_target, current_month_expenses, target_date. -/
def calculate_daily_recommendation (today : Date) (monthly_income savings_target : ℚ)
    (current_month_expenses : List Expense) (target_date : Option Date) :
    DailyRecommendation :=
  let target_date : Date :=
    match target_date with
    | none =>
        if today.month = 12 then ⟨today.year + 1, 1, 3⟩
        else ⟨today.year, today.month + 1, 3⟩
    | some t => t
  let days_remaining : Int := dateSubDays target_date today
  let days_remaining : Int := if days_remaining ≤ 0 then 1 else days_remaining
  let current_month_spent : ℚ :=
    sumAmounts (current_month_expenses.filter (inMonth today.year today.month))
  let available_for_spending : ℚ := monthly_income - savings_target
  let remaining_budget : ℚ := available_for_spending - current_month_spent
  let recommended_daily_limit : ℚ := max 0 (remaining_budget / (days_remaining : ℚ))
  let projected_total_expenses : ℚ :=
    current_month_spent + recommended_daily_limit * (days_remaining : ℚ)
  let projected_savings : ℚ := monthly_income - projected_total_expenses
  { recommended_daily_limit := recommended_daily_limit
    days_remaining := days_remaining
    current_month_spent := current_month_spent
    savings_target := savings_target
    monthly_income := monthly_income
    projected_savings := projected_savings }

/-- Python dict accumulation m[k] = m.get(k, 0) + a: update in place if
the key exists (keeping its position), else append at the end. -/
def assocAdd : List (String × ℚ) → String → ℚ → List (String × ℚ)
  | [], k, a => [(k, a)]
  | (k', v) :: rest, k, a =>
      if k' = k then (k', v + a) :: rest else (k', v) :: assocAdd rest k a

/-- Sum of the values of a dict (sum of d.values()). -/
def valuesSum (l : List (String × ℚ)) : ℚ :=
  l.foldl (fun acc p => acc + p.2) 0

/-- BudgetCalculator.calculate_monthly_summary
(core/calculator.py:77-141). `today` is the ambient clock date. -/
def calculate_monthly_summary (today : Date) (month : Date)
    (income_entries : List BudgetEntry) (expenses : List Expense)
    (savings_goal : Option SavingsGoal) : BudgetSummary :=
  let month_start : Date := replaceDay month 1
  let total_income : ℚ :=
    sumEntryAmounts (income_entries.filter
      (fun entry => entry.month.month == month.month && entry.month.year == month.year))
  let month_expenses : List Expense := expenses.filter (inMonth month.year month.month)
  let total_expenses : ℚ := sumAmounts month_expenses
  let expense_by_category : List (String × ℚ) :=
    month_expenses.foldl (fun m e => assocAdd m (categoryValue e.category) e.amount) []
  let actual_savings : ℚ := total_income - total_expenses
  let savings_target : ℚ :=
    match savings_goal with
    | some goal => goal.target_amount
    | none => 0
  let days_in_month : Nat := monthLen month.year month.month
  let days_passed : Int :=
    if month.month == today.month && month.year == today.year then (today.day : Int)
    else if dateLt month (replaceDay today 1) then (days_in_month : Int)
    else 0
  { month := month_start
    total_income := total_income
    total_expenses := total_expenses
    savings_target := savings_target
    actual_savings := actual_savings
    expense_by_category := expense_by_category
    days_in_month := days_in_month
    days_passed := days_passed }

/-- Tagged Python number: records whether the runtime object is a
Decimal, the result of a float(...) conversion, or an int. The rational
value is carried exactly (binary64 rounding of float is not modelled;
the tag is what representation claims are about). -/
inductive PyNum where
  | decimal (val : ℚ)
  | pyfloat (val : ℚ)
  | pyint (val : ℤ)
deriving DecidableEq, Repr

/-- Numeric value of a tagged Python number. -/
def PyNum.val : PyNum → ℚ
  | .decimal v => v
  | .pyfloat v => v
  | .pyint v => (v : ℚ)

/-- True iff the object is a Python float. -/
def PyNum.isFloat : PyNum → Bool
  | .pyfloat _ => true
  | _ => false

/-- True iff the object is a Decimal. -/
def PyNum.isDecimal : PyNum → Bool
  | .decimal _ => true
  | _ => false

/-- Python float(x) applied to a Decimal x. -/
def pyFloatOf (x : ℚ) : PyNum := .pyfloat x

/-- Python min(a, b) on numbers: returns b when b < a, else a; the
original object (with its representation) is returned, not a copy. -/
def pyMin (a b : PyNum) : PyNum := if b.val < a.val then b else a

/-- Python exception raised by a call. -/
inductive PyError where
  | typeError (msg : String)
deriving DecidableEq, Repr

/-- Alert dictionary produced by get_smart_alerts. -/
structure Alert where
  type : String
  message : String
  severity : String
deriving DecidableEq, Repr

/-- Result dictionary of get_savings_progress
(recommendation_service.py:288-295). -/
structure SavingsProgress where
  target_amount : PyNum
  current_savings : PyNum
  progress_percentage : PyNum
  days_passed : Int
  days_remaining : Int
  on_track : Bool
deriving DecidableEq, Repr

/-- Python str.title() (ASCII): uppercase the first alphabetic character
of each alphabetic run, lowercase the rest. -/
def pyTitle (s : String) : String :=
  String.mk ((s.data.foldl
    (fun (acc : List Char × Bool) c =>
      let c2 :=
        if c.isAlpha then (if acc.2 then c.toLower else c.toUpper) else c
      (acc.1 ++ [c2], c.isAlpha))
    ([], false)).1)

/-- ExpenseService.get_expenses (expense_service.py:84-132): filter the
stored rows of the user by the optional date range and category
(SQL comparisons are the inclusive date order), order by expense_date
descending, then apply the optional limit (a limit of 0 is falsy in
Python and ignored). -/
def get_expenses (store : List Expense) (start_date end_date : Option Date)
    (category : Option ExpenseCategory) (limit : Option Nat) : List Expense :=
  let q := store.filter (fun e =>
    (match start_date with
     | some s => dateLe s e.expense_date
     | none => true) &&
    (match end_date with
     | some t => dateLe e.expense_date t
     | none => true) &&
    (match category with
     | some c => e.category == c
     | none => true))
  let q := q.mergeSort (fun a b => dateLe b.expense_date a.expense_date)
  match limit with
  | some n => if n = 0 then q else q.take n
  | none => q

/-- End date computed at expense_service.py:147-150: the 1st of the
month following the argument. -/
def nextMonthFirst (month : Date) : Date :=
  if month.month = 12 then ⟨month.year + 1, 1, 1⟩
  else ⟨month.year, month.month + 1, 1⟩

/-- ExpenseService.get_monthly_expenses (expense_service.py:134-152):
query from the 1st of the month to the 1st of the following month, both
endpoints passed to the inclusive-range get_expenses. -/
def get_monthly_expenses (store : List Expense) (month : Date) : List Expense :=
  let start_date := replaceDay month 1
  let end_date : Date := nextMonthFirst month
  get_expenses store (some start_date) (some end_date) none none

/-- ExpenseService.get_category_breakdown (expense_service.py:309-337)
applied to the expenses its range query returned. -/
def get_category_breakdown (expenses : List Expense) : List (String × ℚ) :=
  expenses.foldl (fun b e => assocAdd b (categoryValue e.category) e.amount) []

/-- Environment of one RecommendationService call for a fixed user and
month: what the storage collaborator returns for each query the service
issues, plus the ambient clock and the display-formatting collaborators
(string rendering of amounts is outside the engine per the spec). -/
structure Env where
  today : Date
  monthly_income : ℚ
  savings_goal : Option SavingsGoal
  income_entries : List BudgetEntry
  month_expenses : List Expense
  mtd_expenses : List Expense
  formatCurrency : ℚ → String
  formatPercent1 : ℚ → String

/-- Parameter names of BudgetCalculator.calculate_daily_recommendation
(core/calculator.py:16-22), besides self. -/
def calculate_daily_recommendation_params : List String :=
  ["monthly_income", "savings_target", "current_month_expenses", "target_date"]

/-- Keyword names RecommendationService.get_daily_recommendation passes
to the calculator at recommendation_service.py:67-73. -/
def daily_recommendation_call_keywords : List String :=
  ["monthly_income", "savings_target", "current_month_expenses", "target_date",
   "current_month"]

/-- RecommendationService.get_daily_recommendation
(recommendation_service.py:34-73). Fetches income and goal for the
user/month (the env), returns None on income <= 0 or a missing goal,
otherwise delegates to the calculator. Python keyword binding is
modelled explicitly: the call raises TypeError when a passed keyword is
not among the callee parameters. -/
def get_daily_recommendation (env : Env) (target_date : Option Date) :
    Except PyError (Option DailyRecommendation) :=
  if env.monthly_income ≤ 0 then .ok none
  else
    match env.savings_goal with
    | none => .ok none
    | some savings_goal =>
        if daily_recommendation_call_keywords.all
            (fun k => calculate_daily_recommendation_params.contains k) then
          .ok (some (calculate_daily_recommendation env.today env.monthly_income
            savings_goal.target_amount env.month_expenses target_date))
        else
          .error (.typeError
            "calculate_daily_recommendation() got an unexpected keyword argument current_month")

/-- RecommendationService.get_monthly_summary
(recommendation_service.py:75-107): fetches entries, expenses and goal
and delegates to the calculator; the Optional return type is kept. -/
def get_monthly_summary (env : Env) (month : Date) : Option BudgetSummary :=
  some (calculate_monthly_summary env.today month env.income_entries
    env.month_expenses env.savings_goal)

/-- Result dictionary of BudgetCalculator.predict_monthly_outcome. -/
structure MonthlyOutcome where
  current_expenses : ℚ
  predicted_remaining_expenses : ℚ
  predicted_total_expenses : ℚ
  predicted_savings : ℚ
  daily_spending_rate : ℚ
deriving DecidableEq, Repr

/-- BudgetCalculator.predict_monthly_outcome (core/calculator.py:202-247). -/
def predict_monthly_outcome_calc (today : Date) (monthly_income : ℚ)
    (current_expenses : List Expense) (daily_spending_rate : Option ℚ) :
    MonthlyOutcome :=
  let days_in_month := monthLen today.year today.month
  let days_passed := today.day
  let days_remaining : Int := (days_in_month : Int) - (days_passed : Int)
  let current_total : ℚ :=
    sumAmounts (current_expenses.filter (inMonth today.year today.month))
  let rate : ℚ :=
    match daily_spending_rate with
    | some r => r
    | none => if days_passed > 0 then current_total / (days_passed : ℚ) else 0
  let predicted_remaining : ℚ := rate * (days_remaining : ℚ)
  let predicted_total_expenses : ℚ := current_total + predicted_remaining
  let predicted_savings : ℚ := monthly_income - predicted_total_expenses
  { current_expenses := current_total
    predicted_remaining_expenses := predicted_remaining
    predicted_total_expenses := predicted_total_expenses
    predicted_savings := predicted_savings
    daily_spending_rate := rate }

/-- RecommendationService.predict_monthly_outcome
(recommendation_service.py:150-175): None when income <= 0, else
delegate to the calculator. -/
def predict_monthly_outcome_svc (env : Env) : Option MonthlyOutcome :=
  if env.monthly_income ≤ 0 then none
  else some (predict_monthly_outcome_calc env.today env.monthly_income
    env.month_expenses none)

/-- The single setup alert of recommendation_service.py:199-203. -/
def setupAlert : Alert :=
  { type := "setup"
    message := "Please set up your monthly income and savings goal to get recommendations."
    severity := "warning" }

/-- RecommendationService.get_smart_alerts
(recommendation_service.py:177-264). A TypeError raised by
get_daily_recommendation propagates. When recommendation or summary is
absent the single setup alert is returned; otherwise the low-limit,
savings, category-concentration and timeline rules run in order. -/
def get_smart_alerts (env : Env) (month : Date) : Except PyError (List Alert) :=
  match get_daily_recommendation env none with
  | .error e => .error e
  | .ok recommendation =>
    let summary := get_monthly_summary env month
    let prediction := predict_monthly_outcome_svc env
    match recommendation, summary with
    | some r, some s =>
        let budget_alerts : List Alert :=
          if r.recommended_daily_limit < 10 then
            [{ type := "budget"
               message := "Your recommended daily limit is very low (" ++
                 env.formatCurrency r.recommended_daily_limit ++
                 "). Consider adjusting your savings goal."
               severity := "warning" }]
          else []
        let savings_alerts : List Alert :=
          match prediction with
          | none => []
          | some p =>
            if p.predicted_savings < s.savings_target then
              [{ type := "savings"
                 message := "You may fall short of your savings goal by " ++
                   env.formatCurrency (s.savings_target - p.predicted_savings) ++
                   ". Consider reducing daily spending."
                 severity := "error" }]
            else if p.predicted_savings > s.savings_target * ((12 : ℚ) / 10) then
              [{ type := "savings"
                 message := "Great job! You\x27re on track to save " ++
                   env.formatCurrency (p.predicted_savings - s.savings_target) ++
                   " more than your target."
                 severity := "success" }]
            else []
        let category_alerts : List Alert :=
          if month.month == env.today.month && month.year == env.today.year then
            let breakdown := get_category_breakdown env.mtd_expenses
            let total_spent := valuesSum breakdown
            if total_spent > 0 then
              (breakdown.filter (fun p => p.2 / total_spent * 100 > 40)).map
                (fun p =>
                  { type := "category"
                    message := pyTitle p.1 ++ " spending is " ++
                      env.formatPercent1 (p.2 / total_spent * 100) ++
                      "% of your budget. Consider diversifying expenses."
                    severity := "info" })
            else []
          else []
        let timeline_alerts : List Alert :=
          if r.days_remaining ≤ 7 ∧ r.recommended_daily_limit < 5 then
            [{ type := "timeline"
               message := "Only " ++ toString r.days_remaining ++
                 " days left with " ++ env.formatCurrency r.recommended_daily_limit ++
                 " daily limit. Stay focused!"
               severity := "warning" }]
          else []
        .ok (budget_alerts ++ savings_alerts ++ category_alerts ++ timeline_alerts)
    | _, _ => .ok [setupAlert]

/-- RecommendationService.get_savings_progress
(recommendation_service.py:266-295). target_amount and current_savings
go through float(...); progress_percentage starts as the int 0, becomes
a float when the target is positive, and is capped through min(., 100)
with the int 100. -/
def get_savings_progress (env : Env) (month : Date) : Option SavingsProgress :=
  match get_monthly_summary env month with
  | none => none
  | some summary =>
    let progress_percentage : PyNum :=
      if summary.savings_target > 0 then
        pyFloatOf (summary.actual_savings / summary.savings_target * 100)
      else .pyint 0
    some
      { target_amount := pyFloatOf summary.savings_target
        current_savings := pyFloatOf summary.actual_savings
        progress_percentage := pyMin progress_percentage (.pyint 100)
        days_passed := summary.days_passed
        days_remaining := (summary.days_in_month : Int) - summary.days_passed
        on_track := decide (summary.actual_savings ≥ summary.savings_target *
          ((summary.days_passed : ℚ) / (summary.days_in_month : ℚ))) }

/-! Helper lemmas on the fold-based sums. -/

lemma sumAmounts_eq_sum_map (l : List Expense) :
    sumAmounts l = (l.map (fun e => e.amount)).sum := by
  rw [sumAmounts, List.sum_eq_foldl, List.foldl_map]

lemma sumAmounts_cons (e : Expense) (l : List Expense) :
    sumAmounts (e :: l) = e.amount + sumAmounts l := by
  simp [sumAmounts_eq_sum_map]

lemma valuesSum_eq_sum_map (l : List (String × ℚ)) :
    valuesSum l = (l.map Prod.snd).sum := by
  rw [valuesSum, List.sum_eq_foldl, List.foldl_map]

lemma valuesSum_cons (p : String × ℚ) (l : List (String × ℚ)) :
    valuesSum (p :: l) = p.2 + valuesSum l := by
  simp [valuesSum_eq_sum_map]

lemma valuesSum_assocAdd (m : List (String × ℚ)) (k : String) (a : ℚ) :
    valuesSum (assocAdd m k a) = valuesSum m + a := by
  induction m with
  | nil => simp [assocAdd, valuesSum_cons, valuesSum]
  | cons p t ih =>
      obtain ⟨k2, v⟩ := p
      by_cases h : k2 = k
      · simp [assocAdd, h, valuesSum_cons]
        ring
      · simp [assocAdd, h, valuesSum_cons, ih]
        ring

lemma valuesSum_fold_assocAdd (l : List Expense) (m : List (String × ℚ)) :
    valuesSum (l.foldl (fun m e => assocAdd m (categoryValue e.category) e.amount) m)
      = valuesSum m + sumAmounts l := by
  induction l generalizing m with
  | nil => simp [sumAmounts]
  | cons e t ih =>
      simp only [List.foldl]
      rw [ih, valuesSum_assocAdd, sumAmounts_cons]
      ring

/-- Claim C4: for every target date (including dates on or before today,
arbitrarily far in the past) and all other inputs, the days_remaining
stored in the DailyRecommendation returned by
calculate_daily_recommendation is at least 1, so the division producing
the daily limit is never by zero or by a negative number. -/
theorem c4_days_remaining_at_least_one (today : Date) (monthly_income savings_target : ℚ)
    (expenses : List Expense) (target_date : Option Date) :
    1 ≤ (calculate_daily_recommendation today monthly_income savings_target
          expenses target_date).days_remaining := by
  simp only [calculate_daily_recommendation]
  split <;> omega

/-- Claim C5: in the BudgetSummary returned by calculate_monthly_summary,
the values of expense_by_category sum to exactly total_expenses, for any
month and any input expenses (exact rational arithmetic). -/
theorem c5_category_values_sum_to_total (today month : Date)
    (income_entries : List BudgetEntry) (expenses : List Expense)
    (savings_goal : Option SavingsGoal) :
    valuesSum ((calculate_monthly_summary today month income_entries expenses
        savings_goal).expense_by_category)
      = (calculate_monthly_summary today month income_entries expenses
          savings_goal).total_expenses := by
  simp only [calculate_monthly_summary]
  rw [valuesSum_fold_assocAdd]
  simp [valuesSum]

/-- Claim C3: for savings_target <= monthly_income and non-negative
expense amounts, the recommended daily limit equals
max(0, (monthly_income - savings_target - current_month_spent) /
days_remaining) and is never negative, even when the month's spending
exceeds monthly_income - savings_target. -/
theorem c3_daily_limit_clamped (today : Date) (monthly_income savings_target : ℚ)
    (expenses : List Expense) (target_date : Option Date)
    (hle : savings_target ≤ monthly_income)
    (hpos : ∀ e ∈ expenses, 0 ≤ e.amount) :
    (calculate_daily_recommendation today monthly_income savings_target expenses
        target_date).recommended_daily_limit
      = max 0 ((monthly_income - savings_target -
          sumAmounts (expenses.filter (inMonth today.year today.month))) /
          (((calculate_daily_recommendation today monthly_income savings_target expenses
              target_date).days_remaining : ℚ)))
    ∧ 0 ≤ (calculate_daily_recommendation today monthly_income savings_target expenses
        target_date).recommended_daily_limit := by
  constructor
  · rfl
  · exact le_max_left _ _

/-- Witness for c3_daily_limit_clamped at income 5000, target 1000, the
two expenses of the spec scenario dated 2026-10-12, default target
date. -/
theorem c3_daily_limit_clamped_witness :
    (calculate_daily_recommendation ⟨2026, 10, 12⟩ 5000 1000
        [⟨(51 : ℚ)/2, .food, ⟨2026, 10, 12⟩⟩, ⟨50, .transportation, ⟨2026, 10, 12⟩⟩]
        none).recommended_daily_limit
      = max 0 ((5000 - 1000 -
          sumAmounts (([⟨(51 : ℚ)/2, .food, ⟨2026, 10, 12⟩⟩,
              ⟨50, .transportation, ⟨2026, 10, 12⟩⟩] : List Expense).filter
            (inMonth 2026 10))) /
          (((calculate_daily_recommendation ⟨2026, 10, 12⟩ 5000 1000
              [⟨(51 : ℚ)/2, .food, ⟨2026, 10, 12⟩⟩, ⟨50, .transportation, ⟨2026, 10, 12⟩⟩]
              none).days_remaining : ℚ)))
    ∧ 0 ≤ (calculate_daily_recommendation ⟨2026, 10, 12⟩ 5000 1000
        [⟨(51 : ℚ)/2, .food, ⟨2026, 10, 12⟩⟩, ⟨50, .transportation, ⟨2026, 10, 12⟩⟩]
        none).recommended_daily_limit :=
  c3_daily_limit_clamped ⟨2026, 10, 12⟩ 5000 1000
    [⟨(51 : ℚ)/2, .food, ⟨2026, 10, 12⟩⟩, ⟨50, .transportation, ⟨2026, 10, 12⟩⟩]
    none (by norm_num) (by
      intro e he
      simp only [List.mem_cons, List.mem_singleton] at he
      rcases he with h | h | h
      · rw [h]; norm_num
      · rw [h]; norm_num
      · cases h)

/-- Claim-side restatement of the C6 case analysis, following the spec
wording: daysPassed is the full day-count of the month when the month
lies strictly in the past (any day-of-month in the argument), the day of
the month of today when the argument falls in the current calendar
month, and 0 for a future month. -/
def daysPassedSpec (today month : Date) : Int :=
  if month.year = today.year ∧ month.month = today.month then (today.day : Int)
  else if month.year < today.year ∨
      (month.year = today.year ∧ month.month < today.month) then
    (monthLen month.year month.month : Int)
  else 0

/-- Claim C6: the days_passed field computed by calculate_monthly_summary
matches the spec case analysis daysPassedSpec for every month argument
(any day-of-month) and every clock date. -/
theorem c6_days_passed_cases (today month : Date)
    (income_entries : List BudgetEntry) (expenses : List Expense)
    (savings_goal : Option SavingsGoal) :
    (calculate_monthly_summary today month income_entries expenses
        savings_goal).days_passed = daysPassedSpec today month := by
  by_cases hm : month.month = today.month <;>
    by_cases hy : month.year = today.year <;>
      simp [calculate_monthly_summary, daysPassedSpec, dateLt, replaceDay, hm, hy] <;>
        split_ifs <;> first | rfl | omega

/-- Claim C9: get_monthly_summary never returns None; for every
environment it returns a BudgetSummary, and when the user has no income
entries, no expenses and no savings goal for the month, that summary has
zero totals and an empty category map. -/
theorem c9_summary_always_present (env : Env) (month : Date) :
    (get_monthly_summary env month).isSome = true ∧
    (env.income_entries = [] → env.month_expenses = [] → env.savings_goal = none →
      ∃ s, get_monthly_summary env month = some s ∧
        s.total_income = 0 ∧ s.total_expenses = 0 ∧ s.savings_target = 0 ∧
        s.actual_savings = 0 ∧ s.expense_by_category = []) := by
  constructor
  · rfl
  · intro h1 h2 h3
    refine ⟨_, rfl, ?_⟩
    simp [calculate_monthly_summary, h1, h2, h3, sumAmounts, sumEntryAmounts]

/-- Environment of a user with no data at all for the queried month. -/
def envC9 : Env :=
  { today := ⟨2026, 10, 12⟩
    monthly_income := 0
    savings_goal := none
    income_entries := []
    month_expenses := []
    mtd_expenses := []
    formatCurrency := fun _ => ""
    formatPercent1 := fun _ => "" }

/-- Witness for c9_summary_always_present on a user with no income, no
expenses and no goal. -/
theorem c9_summary_always_present_witness :
    (get_monthly_summary envC9 ⟨2026, 10, 12⟩).isSome = true ∧
    (∃ s, get_monthly_summary envC9 ⟨2026, 10, 12⟩ = some s ∧
      s.total_income = 0 ∧ s.total_expenses = 0 ∧ s.savings_target = 0 ∧
      s.actual_savings = 0 ∧ s.expense_by_category = []) := by
  have h := c9_summary_always_present envC9 ⟨2026, 10, 12⟩
  exact ⟨h.1, h.2 rfl rfl rfl⟩

/-- Claim C7: when the user has no positive monthly income or no savings
goal for the month, get_smart_alerts returns exactly the one setup alert
(type setup, severity warning) and no other rule produces an alert. -/
theorem c7_setup_alert_short_circuit (env : Env) (month : Date)
    (h : env.monthly_income ≤ 0 ∨ env.savings_goal = none) :
    get_smart_alerts env month = .ok [setupAlert] ∧
      setupAlert.type = "setup" ∧ setupAlert.severity = "warning" := by
  refine ⟨?_, rfl, rfl⟩
  have hrec : get_daily_recommendation env none = .ok none := by
    rcases h with h | h
    · simp [get_daily_recommendation, h]
    · simp only [get_daily_recommendation, h]
      split <;> rfl
  simp [get_smart_alerts, hrec, get_monthly_summary]

/-- Environment of a user with no income configured (income lookup
returns 0) even though a goal exists. -/
def envC7 : Env :=
  { today := ⟨2026, 10, 12⟩
    monthly_income := 0
    savings_goal := some ⟨1000, ⟨2026, 10, 1⟩⟩
    income_entries := []
    month_expenses := [⟨30, .food, ⟨2026, 10, 3⟩⟩]
    mtd_expenses := [⟨30, .food, ⟨2026, 10, 3⟩⟩]
    formatCurrency := fun _ => ""
    formatPercent1 := fun _ => "" }

/-- Witness for c7_setup_alert_short_circuit at a user with income 0. -/
theorem c7_setup_alert_short_circuit_witness :
    get_smart_alerts envC7 ⟨2026, 10, 12⟩ = .ok [setupAlert] ∧
      setupAlert.type = "setup" ∧ setupAlert.severity = "warning" :=
  c7_setup_alert_short_circuit envC7 ⟨2026, 10, 12⟩ (Or.inl (by decide))

/-- Claim C10: membership in get_monthly_expenses is exactly membership
in the stored rows with a date between the 1st of the month and the 1st
of the following month, both endpoints inclusive; in particular every
stored expense dated exactly on the 1st of the following month is
included. -/
theorem c10_month_range_endpoints (store : List Expense) (month : Date) (e : Expense) :
    (e ∈ get_monthly_expenses store month ↔
      e ∈ store ∧ dateLe (replaceDay month 1) e.expense_date = true ∧
        dateLe e.expense_date (nextMonthFirst month) = true) ∧
    (e ∈ store → e.expense_date = nextMonthFirst month →
      e ∈ get_monthly_expenses store month) := by
  have hiff : e ∈ get_monthly_expenses store month ↔
      e ∈ store ∧ dateLe (replaceDay month 1) e.expense_date = true ∧
        dateLe e.expense_date (nextMonthFirst month) = true := by
    simp only [get_monthly_expenses, get_expenses]
    rw [List.mem_mergeSort, List.mem_filter]
    simp [Bool.and_eq_true]
  refine ⟨hiff, fun hst heq => ?_⟩
  rw [hiff]
  refine ⟨hst, ?_, ?_⟩
  · rw [heq]
    simp only [nextMonthFirst, replaceDay, dateLe, dateLt]
    split_ifs <;> simp <;> omega
  · rw [heq]
    simp [dateLe]

/-- Witness for c10_month_range_endpoints: an expense stored with date
2026-11-01 is returned by the October 2026 month query. -/
theorem c10_month_range_endpoints_witness :
    (⟨7, .food, ⟨2026, 11, 1⟩⟩ : Expense) ∈
      get_monthly_expenses [⟨7, .food, ⟨2026, 11, 1⟩⟩] ⟨2026, 10, 5⟩ :=
  (c10_month_range_endpoints [⟨7, .food, ⟨2026, 11, 1⟩⟩] ⟨2026, 10, 5⟩
      ⟨7, .food, ⟨2026, 11, 1⟩⟩).2 (by simp) (by rfl)

/-- Value of the progress-percentage object built at
recommendation_service.py:284-291: it is min over the rational values. -/
lemma progress_percentage_val (t a : ℚ) :
    (pyMin (if t > 0 then pyFloatOf (a / t * 100) else .pyint 0)
        (.pyint 100)).val
      = if t > 0 then min (a / t * 100) 100 else 0 := by
  by_cases ht : t > 0
  · rw [if_pos ht, if_pos ht]
    unfold pyMin pyFloatOf
    by_cases hlt : (100 : ℚ) < a / t * 100
    · rw [if_pos, min_eq_right (le_of_lt hlt)]
      · rfl
      · show ((PyNum.pyint 100).val < (PyNum.pyfloat (a / t * 100)).val)
        simp only [PyNum.val]
        push_cast
        exact hlt
    · rw [if_neg, min_eq_left (not_lt.mp hlt)]
      · rfl
      · show ¬ ((PyNum.pyint 100).val < (PyNum.pyfloat (a / t * 100)).val)
        simp only [PyNum.val]
        push_cast
        exact hlt
  · rw [if_neg ht, if_neg ht]
    unfold pyMin
    rw [if_neg]
    · rfl
    · show ¬ ((PyNum.pyint 100).val < (PyNum.pyint 0).val)
      simp only [PyNum.val]
      norm_num

/-- Claim C8: the progress percentage returned by get_savings_progress
equals actual_savings / savings_target * 100 when the target is positive
and that quotient is at most 100, equals 0 when the target is 0, equals
exactly 100 whenever the savings exceed a positive target, and is never
above 100. -/
theorem c8_progress_percentage_clamped (env : Env) (month : Date) :
    ∃ s p, get_monthly_summary env month = some s ∧
      get_savings_progress env month = some p ∧
      (0 < s.savings_target → s.actual_savings / s.savings_target * 100 ≤ 100 →
        p.progress_percentage.val = s.actual_savings / s.savings_target * 100) ∧
      (s.savings_target = 0 → p.progress_percentage.val = 0) ∧
      (0 < s.savings_target → s.savings_target < s.actual_savings →
        p.progress_percentage.val = 100) ∧
      p.progress_percentage.val ≤ 100 := by
  refine ⟨_, _, rfl, rfl, ?_, ?_, ?_, ?_⟩ <;> dsimp only <;>
    rw [progress_percentage_val]
  · intro ht hle
    rw [if_pos ht]
    exact min_eq_left hle
  · intro ht0
    rw [if_neg]
    rw [ht0]
    exact lt_irrefl 0
  · intro ht hlt
    rw [if_pos ht]
    have h1 : 1 < (calculate_monthly_summary env.today month env.income_entries
        env.month_expenses env.savings_goal).actual_savings /
        (calculate_monthly_summary env.today month env.income_entries
          env.month_expenses env.savings_goal).savings_target :=
      (one_lt_div ht).mpr hlt
    have h100 : (100 : ℚ) <
        (calculate_monthly_summary env.today month env.income_entries
          env.month_expenses env.savings_goal).actual_savings /
        (calculate_monthly_summary env.today month env.income_entries
          env.month_expenses env.savings_goal).savings_target * 100 := by
      linarith
    exact min_eq_right (le_of_lt h100)
  · split_ifs
    · exact min_le_right _ _
    · norm_num

/-- Environment of a user whose October 2026 data is an income of 5000,
a goal of 1000 and no expenses, so savings exceed the target. -/
def envC8 : Env :=
  { today := ⟨2026, 10, 12⟩
    monthly_income := 5000
    savings_goal := some ⟨1000, ⟨2026, 10, 1⟩⟩
    income_entries := [⟨5000, ⟨2026, 10, 1⟩⟩]
    month_expenses := []
    mtd_expenses := []
    formatCurrency := fun _ => ""
    formatPercent1 := fun _ => "" }

/-- Witness for c8_progress_percentage_clamped: with savings 5000 far
above the target 1000, the returned percentage is exactly 100. -/
theorem c8_progress_percentage_clamped_witness :
    ∃ s p, get_monthly_summary envC8 ⟨2026, 10, 12⟩ = some s ∧
      get_savings_progress envC8 ⟨2026, 10, 12⟩ = some p ∧
      p.progress_percentage.val = 100 := by
  obtain ⟨s, p, hs, hp, _, _, h3, _⟩ :=
    c8_progress_percentage_clamped envC8 ⟨2026, 10, 12⟩
  refine ⟨s, p, hs, hp, ?_⟩
  have hs2 : s = calculate_monthly_summary envC8.today ⟨2026, 10, 12⟩
      envC8.income_entries envC8.month_expenses envC8.savings_goal :=
    Option.some_injective _ hs.symm
  have hT : (calculate_monthly_summary envC8.today (⟨2026, 10, 12⟩ : Date)
      envC8.income_entries envC8.month_expenses envC8.savings_goal).savings_target
      = 1000 := by
    norm_num [calculate_monthly_summary, envC8, sumEntryAmounts, sumAmounts, inMonth]
  have hA : (calculate_monthly_summary envC8.today (⟨2026, 10, 12⟩ : Date)
      envC8.income_entries envC8.month_expenses envC8.savings_goal).actual_savings
      = 5000 := by
    norm_num [calculate_monthly_summary, envC8, sumEntryAmounts, sumAmounts, inMonth]
  apply h3 <;> rw [hs2, hT] <;> try rw [hA]
  · norm_num
  · norm_num

/-- Environment used to exhibit the float conversions of
get_savings_progress: income 5000, goal 1000, no expenses. -/
def envC2 : Env :=
  { today := ⟨2026, 10, 12⟩
    monthly_income := 5000
    savings_goal := some ⟨1000, ⟨2026, 10, 1⟩⟩
    income_entries := [⟨5000, ⟨2026, 10, 1⟩⟩]
    month_expenses := []
    mtd_expenses := []
    formatCurrency := fun _ => ""
    formatPercent1 := fun _ => "" }

/-- Counterexample to claim C2: at a concrete user and month, the
target_amount, current_savings and progress_percentage returned by
get_savings_progress are not Decimal objects — the first two are
float(...) conversions performed inside the engine. -/
theorem c2_counterexample_floats_returned :
    ∃ p, get_savings_progress envC2 ⟨2026, 10, 12⟩ = some p ∧
      p.target_amount.isFloat = true ∧ p.target_amount.isDecimal = false ∧
      p.current_savings.isFloat = true ∧ p.current_savings.isDecimal = false ∧
      p.progress_percentage.isDecimal = false := by
  refine ⟨_, rfl, rfl, rfl, rfl, rfl, ?_⟩
  dsimp only
  rw [if_pos]
  · unfold pyMin pyFloatOf
    split_ifs <;> rfl
  · have hT : (calculate_monthly_summary envC2.today (⟨2026, 10, 12⟩ : Date)
        envC2.income_entries envC2.month_expenses envC2.savings_goal).savings_target
        = 1000 := by
      norm_num [calculate_monthly_summary, envC2, sumEntryAmounts, sumAmounts, inMonth]
    rw [hT]
    norm_num

/-- Claim C2 as amended: the Calculator itself works in exact decimals,
but get_savings_progress converts target_amount and current_savings to
floating point with float(...) inside the engine, and its
progress_percentage is never a Decimal (a float when the target is
positive, an int otherwise or when capped). -/
theorem c2_savings_progress_not_decimal (env : Env) (month : Date) :
    ∃ p, get_savings_progress env month = some p ∧
      p.target_amount.isFloat = true ∧ p.current_savings.isFloat = true ∧
      p.progress_percentage.isDecimal = false := by
  refine ⟨_, rfl, rfl, rfl, ?_⟩
  dsimp only
  unfold pyMin pyFloatOf
  split_ifs <;> rfl

/-- Environment of a user with positive income and a savings goal for
the queried month — the precondition under which claim C1 promises a
DailyRecommendation and no exception. -/
def envC1 : Env :=
  { today := ⟨2026, 10, 12⟩
    monthly_income := 5000
    savings_goal := some ⟨1000, ⟨2026, 10, 1⟩⟩
    income_entries := [⟨5000, ⟨2026, 10, 1⟩⟩]
    month_expenses := []
    mtd_expenses := []
    formatCurrency := fun _ => ""
    formatPercent1 := fun _ => "" }

/-- Claim C1 fails on the code: for a user with positive monthly income
and a savings goal set, get_daily_recommendation raises a TypeError
instead of returning a DailyRecommendation, because the service passes
the keyword argument current_month (recommendation_service.py:72) and
the calculator signature (core/calculator.py:16-22) has no such
parameter. -/
theorem c1_happy_path_raises_typeerror :
    0 < envC1.monthly_income ∧ envC1.savings_goal.isSome = true ∧
      get_daily_recommendation envC1 none =
        .error (.typeError
          "calculate_daily_recommendation() got an unexpected keyword argument current_month") := by
  refine ⟨by norm_num [envC1], rfl, ?_⟩
  rw [get_daily_recommendation, if_neg]
  · rfl
  · norm_num [envC1]

end BudgetManager
